import Mathlib

/-!
Verification of the NIFTY50 open-interest poller (`src/main.py`).

The development shallowly embeds the Python program: parsed JSON documents
become the inductive `JVal`; Python's `dict.get(k, default)` (which raises
`AttributeError` on non-dict receivers) becomes `pyGet`, returning
`Except PyErr`; module-level mutable state (`cache`, `_cookies`,
`_last_cookie_time`) becomes explicit state records threaded through the
functions; network I/O becomes an environment record describing the
responses the `requests` library would deliver.  Wall-clock times are
modelled as integers (seconds); no claim depends on sub-second precision.
-/

/-- Errors a modelled Python expression can raise. -/
inductive PyErr where
  | attributeError
  | httpError
  | jsonDecodeError
  deriving Repr, DecidableEq

/-- Parsed JSON values, as produced by `resp.json()` in Python.
Numbers are modelled as integers; the claims under study involve no
fractional values. -/
inductive JVal where
  | null
  | jbool (b : Bool)
  | jint (n : Int)
  | jstr (s : String)
  | jarr (xs : List JVal)
  | jobj (fields : List (String × JVal))
  deriving Repr

/-- Lookup in a JSON object.  `json.loads` keeps the LAST occurrence of a
duplicated key, so later fields shadow earlier ones. -/
def getKey : List (String × JVal) → String → Option JVal
  | [], _ => none
  | (k, v) :: rest, key =>
    match getKey rest key with
    | some r => some r
    | none => if k = key then some v else none

/-- Python `x.get(k, default)`: returns the value (or the default) when `x`
is a dict, and raises `AttributeError` when `x` is any other value
(list, str, int, bool, None), exactly as in CPython. -/
def pyGet (v : JVal) (k : String) (default : JVal) : Except PyErr JVal :=
  match v with
  | .jobj fields => .ok ((getKey fields k).getD default)
  | _ => .error .attributeError

/-- Python truthiness of a JSON value: `None`, `False`, `0`, `""`, `[]`
and `{}` are falsy.  Used by `if data:` in the background loop. -/
def isTruthy : JVal → Bool
  | .null => false
  | .jbool b => b
  | .jint n => n != 0
  | .jstr s => s != ""
  | .jarr xs => !xs.isEmpty
  | .jobj fields => !fields.isEmpty

/-- Is the value a Python dict? -/
def isDict : JVal → Bool
  | .jobj _ => true
  | _ => false

/-- Is the value a non-negative integer? -/
def isNonnegInt : JVal → Bool
  | .jint n => decide (0 ≤ n)
  | _ => false

/-- One side of `_update_totals_from_json`:
`data.get("filtered", {}).get(side, {}).get("totOI", 0)`.  An
`AttributeError` raised by any link of the chain propagates, aborting
the rest of the chain. -/
def extractSide (data : JVal) (side : String) : Except PyErr JVal :=
  match pyGet data "filtered" (.jobj []) with
  | .error e => .error e
  | .ok fil =>
    match pyGet fil side (.jobj []) with
    | .error e => .error e
    | .ok sv => pyGet sv "totOI" (.jint 0)

/-- Both extractions of `_update_totals_from_json`, in program order:
`ce_oi` is evaluated first, so if it raises, `pe_oi` is never reached. -/
def extractTotals (data : JVal) : Except PyErr (JVal × JVal) :=
  match extractSide data "CE" with
  | .error e => .error e
  | .ok ce =>
    match extractSide data "PE" with
    | .error e => .error e
    | .ok pe => .ok (ce, pe)

/-- The `new_totals` dict built by `_update_totals_from_json`:
`{"CE": {"totalOI": ce}, "PE": {"totalOI": pe}}`. -/
def mkTotals (ce pe : JVal) : JVal :=
  .jobj [("CE", .jobj [("totalOI", ce)]), ("PE", .jobj [("totalOI", pe)])]

/-- The module-level `cache` dict: a timestamp (0 before any successful
fetch) and the totals dict. -/
structure Cache where
  timestamp : Int
  totals : JVal
  deriving Repr

/-- `cache` at module load: `{"timestamp": 0, "totals": {"CE": {"totalOI": 0},
"PE": {"totalOI": 0}}}`. -/
def initCache : Cache :=
  ⟨0, mkTotals (.jint 0) (.jint 0)⟩

/-- `_update_totals_from_json(data)` acting on the cache at time `now`:
extract both sides, then replace timestamp and totals.  If extraction
raises, the error propagates and the cache is untouched (in the Python
code the two `cache[...] =` assignments come after both extractions). -/
def _update_totals_from_json (data : JVal) (now : Int) (_c : Cache) :
    Except PyErr Cache :=
  match extractTotals data with
  | .ok (ce, pe) => .ok ⟨now, mkTotals ce pe⟩
  | .error e => .error e

/-- One iteration of the `while True:` body of `_background_fetch_loop`,
given the fetch outcome `fetched` (the `Option` result of
`_fetch_option_chain_json`) and the wall-clock time `now`.  The
`try ... except Exception` around the body catches any error raised by
`_update_totals_from_json`, leaving the cache as it was; `if data:`
skips falsy payloads. -/
def cycleStep (c : Cache) (now : Int) (fetched : Option JVal) : Cache :=
  match fetched with
  | some data =>
    if isTruthy data then
      match _update_totals_from_json data now c with
      | .ok c' => c'
      | .error _ => c
    else c
  | none => c

/-- The loop run for `n` cycles: `trace k` gives cycle `k`'s wall-clock
time and fetch outcome.  Totality of this definition reflects that the
loop body never escapes: every cycle ends in the sleep and the next
cycle starts. -/
def runLoop (trace : Nat → Int × Option JVal) (c : Cache) : Nat → Cache
  | 0 => c
  | n + 1 => cycleStep (runLoop trace c n) (trace n).1 (trace n).2

/-- A finite batch of cycles, given as a list of (time, fetch outcome). -/
def runCycles (c : Cache) (inputs : List (Int × Option JVal)) : Cache :=
  inputs.foldl (fun acc p => cycleStep acc p.1 p.2) c

/-- The module-level session state: `_cookies` (a dict, modelled as an
association list) and `_last_cookie_time` (0 at module load). -/
structure SessionState where
  cookies : List (String × String)
  lastCookieTime : Int
  deriving Repr, DecidableEq

/-- `_cookies = {}`, `_last_cookie_time = 0` at module load. -/
def initSession : SessionState :=
  ⟨[], 0⟩

/-- `requests.Response.raise_for_status()` raises `HTTPError` exactly for
status codes in `[400, 600)`; 1xx, 2xx and 3xx codes pass through. -/
def raise_for_status (status : Nat) : Bool :=
  decide (400 ≤ status) && decide (status < 600)

/-- The environment of one `_refresh_nse_cookies()` call: the final status
of each of the two page loads (`none` models a network error raised by
`session.get`), the cookie jar contents `session.cookies.get_dict()`
would report after both loads, and the value of `time.time()` at the
point the refresh completes. -/
structure RefreshEnv where
  homeStatus : Option Nat
  chainStatus : Option Nat
  jar : List (String × String)
  time : Int
  deriving Repr

/-- The `try` body of `_refresh_nse_cookies`: homepage load, then
option-chain page load, each followed by `raise_for_status()`; on
success the cookie jar and the current time are stored.  `none` means
some step raised. -/
def refreshBody (env : RefreshEnv) : Option SessionState :=
  match env.homeStatus with
  | none => none
  | some s1 =>
    if raise_for_status s1 then none
    else
      match env.chainStatus with
      | none => none
      | some s2 =>
        if raise_for_status s2 then none
        else some ⟨env.jar, env.time⟩

/-- `_refresh_nse_cookies()`: the `except Exception` handler turns any
failure into a no-op on the session state, so the function is total (it
never raises past its boundary). -/
def _refresh_nse_cookies (st : SessionState) (env : RefreshEnv) : SessionState :=
  (refreshBody env).getD st

/-- Does the `try` body of `_refresh_nse_cookies` fail (network error on
either load, or a status `raise_for_status` rejects)? -/
def refreshFails (env : RefreshEnv) : Bool :=
  match env.homeStatus with
  | none => true
  | some s1 =>
    raise_for_status s1 ||
      match env.chainStatus with
      | none => true
      | some s2 => raise_for_status s2

/-- One response of the NSE data API: HTTP status and the outcome of
`resp.json()` on its body. -/
structure DataResp where
  status : Nat
  body : Except PyErr JVal
  deriving Repr

/-- Outcome of one `session.get(api_url, ...)` call: a network/timeout
error, or a response. -/
inductive AttemptOutcome where
  | netErr
  | resp (r : DataResp)
  deriving Repr

/-- The environment of one `_fetch_option_chain_json()` call: the value of
`time.time()` at entry, the refresh environment used if the pre-fetch
refresh runs, the first request's outcome, and (used only on a 401/403)
the reactive refresh environment and the retry's outcome. -/
structure FetchEnv where
  now : Int
  preRefresh : RefreshEnv
  attempt1 : AttemptOutcome
  reactRefresh : RefreshEnv
  attempt2 : AttemptOutcome
  deriving Repr

/-- Observable call counts of one fetch execution: data-request attempts
made, reactive (post-401/403) refresh calls, pre-fetch refresh calls. -/
structure FetchStats where
  attempts : Nat
  reactiveRefreshes : Nat
  preRefreshes : Nat
  deriving Repr, DecidableEq

/-- `resp.raise_for_status()` followed by `data = resp.json()`, inside
the fetch's `try`: a raising status or a parse error is caught by the
`except` and yields `None`. -/
def finishResp (r : DataResp) : Option JVal :=
  if raise_for_status r.status then none
  else
    match r.body with
    | .ok j => some j
    | .error _ => none

/-- `_fetch_option_chain_json()`: refresh the cookies first when they are
older than `COOKIE_REFRESH_INTERVAL = 600` seconds or absent; issue the
request; on a 401/403 status refresh once and retry once; any other
failure is caught and returns `None`.  Returns the parsed payload (if
any), the session state after the call, and the call counts. -/
def _fetch_option_chain_json (st : SessionState) (env : FetchEnv) :
    Option JVal × SessionState × FetchStats :=
  let needsPre : Bool := decide (env.now - st.lastCookieTime > 600) || st.cookies.isEmpty
  let st1 := if needsPre then _refresh_nse_cookies st env.preRefresh else st
  let pre : Nat := if needsPre then 1 else 0
  match env.attempt1 with
  | .netErr => (none, st1, ⟨1, 0, pre⟩)
  | .resp r1 =>
    if r1.status = 401 ∨ r1.status = 403 then
      let st2 := _refresh_nse_cookies st1 env.reactRefresh
      match env.attempt2 with
      | .netErr => (none, st2, ⟨2, 1, pre⟩)
      | .resp r2 => (finishResp r2, st2, ⟨2, 1, pre⟩)
    else
      (finishResp r1, st1, ⟨1, 0, pre⟩)

/-- The JSON body of the 503 response of `GET /`. -/
def unavailableBody : JVal :=
  .jobj [("error", .jstr "Data not yet available; try again in a few seconds.")]

/-- `get_option_totals()`, the `GET /` handler: 503 with the error body
while `cache["timestamp"] == 0`, otherwise 200 with `cache["totals"]`. -/
def get_option_totals (c : Cache) : Nat × JVal :=
  if c.timestamp = 0 then (503, unavailableBody)
  else (200, c.totals)

/-- Key-missing predicate for `extractSide`: along the nested path
`filtered`.`side`.`totOI` every component that is present is a dict, and
some key on the path (in particular `totOI`) is absent, so every
`.get` call meets a dict and the chain's default is taken. -/
def keyMissing (data : JVal) (side : String) : Bool :=
  match data with
  | .jobj f =>
    match getKey f "filtered" with
    | none => true
    | some (.jobj g) =>
      match getKey g side with
      | none => true
      | some (.jobj h) =>
        match getKey h "totOI" with
        | none => true
        | some _ => false
      | some _ => false
    | some _ => false
  | _ => false

/-- Well-shaped side of a payload: the nested path `filtered`.`side`.`totOI`
traverses only dicts, and the `totOI` value, when present, is a
non-negative integer. -/
def sideNonneg (data : JVal) (side : String) : Bool :=
  match data with
  | .jobj f =>
    match getKey f "filtered" with
    | none => true
    | some (.jobj g) =>
      match getKey g side with
      | none => true
      | some (.jobj h) =>
        match getKey h "totOI" with
        | none => true
        | some (.jint n) => decide (0 ≤ n)
        | some _ => false
      | some _ => false
    | some _ => false
  | _ => false

/-!
Concurrency model for the snapshot handoff.

The program runs on a single-threaded asyncio event loop: the background
task (`_background_fetch_loop`) and the `GET /` handler are coroutines
that interleave only at `await` points.  The loop body — including the
two assignments `cache["timestamp"] = ...` and `cache["totals"] = ...`
in `_update_totals_from_json` — contains no `await` (its network I/O is
the synchronous `requests` library, which blocks the whole event loop),
so the only point where a reader coroutine can run is while the writer
is suspended at `await asyncio.sleep(API_POLL_INTERVAL)`.

To check the atomicity claim at the finest relevant granularity we model
the writer's two cache assignments as SEPARATE steps, tag each write
with the index of the cycle performing it, and allow a read exactly in
the states where the writer is suspended at its sleep. -/

/-- Program counter of the writer: suspended at `await asyncio.sleep`
(the only suspension point), or between the `cache["timestamp"]` and
`cache["totals"]` assignments. -/
inductive WriterPc where
  | sleeping
  | midUpdate
  deriving Repr, DecidableEq

/-- Event-loop state: writer's program counter, the cycle index stamped on
the cache's timestamp field, the cycle index stamped on the cache's
totals field, and the number of successful cycles completed. -/
structure LoopState where
  pc : WriterPc
  tsCycle : Nat
  totalsCycle : Nat
  done : Nat
  deriving Repr, DecidableEq

/-- Initial state: writer at its first sleep, cache holding the module-load
values (cycle 0). -/
def initLoopState : LoopState :=
  ⟨.sleeping, 0, 0, 0⟩

/-- Micro-steps of the background loop.  A failed cycle writes nothing.  A
successful cycle executes its two cache assignments as two separate
steps: first the timestamp, then the totals, both stamped with the new
cycle index. -/
inductive LoopMicroStep : LoopState → LoopState → Prop where
  | failedCycle (s : LoopState) (h : s.pc = .sleeping) :
      LoopMicroStep s s
  | writeTimestamp (s : LoopState) (h : s.pc = .sleeping) :
      LoopMicroStep s ⟨.midUpdate, s.done + 1, s.totalsCycle, s.done⟩
  | writeTotals (s : LoopState) (h : s.pc = .midUpdate) :
      LoopMicroStep s ⟨.sleeping, s.tsCycle, s.done + 1, s.done + 1⟩

/-- States the event loop can reach from process start. -/
inductive LoopReachable : LoopState → Prop where
  | init : LoopReachable initLoopState
  | step {s s' : LoopState} (hr : LoopReachable s) (hs : LoopMicroStep s s') :
      LoopReachable s'

/-- A reader coroutine can observe the cache only while the writer is
suspended at its sleep; the observation is the (timestamp, totals)
cycle-tag pair. -/
def readerObservation (s : LoopState) (_h : s.pc = .sleeping) : Nat × Nat :=
  (s.tsCycle, s.totalsCycle)

/-- Invariant of the event-loop states: at the sleep point both cache
fields carry the tag of the last completed cycle; between the two
assignments the timestamp is one cycle ahead of the totals. -/
def loopInv (s : LoopState) : Prop :=
  (s.pc = .sleeping → s.tsCycle = s.done ∧ s.totalsCycle = s.done) ∧
  (s.pc = .midUpdate → s.tsCycle = s.done + 1 ∧ s.totalsCycle = s.done)

/-- Is an HTTP status in the 2xx success class? -/
def is2xx (status : Nat) : Bool :=
  decide (200 ≤ status) && decide (status < 300)

/-- A payload whose `"filtered"` value is not a dict: `{"filtered": 5}`. -/
def badPayload : JVal :=
  .jobj [("filtered", .jint 5)]

/-- The payload of the spec's success scenario:
`{"filtered": {"CE": {"totOI": 120}, "PE": {"totOI": 95}}}`. -/
def goodPayload : JVal :=
  .jobj [("filtered", .jobj [("CE", .jobj [("totOI", .jint 120)]),
                             ("PE", .jobj [("totOI", .jint 95)])])]

/-- A payload carrying a negative `totOI` for the CE side. -/
def negPayload : JVal :=
  .jobj [("filtered", .jobj [("CE", .jobj [("totOI", .jint (-5))]),
                             ("PE", .jobj [("totOI", .jint 0)])])]

/-- A trace in which every cycle's fetch returns `None`. -/
def noneTrace : Nat → Int × Option JVal :=
  fun _ => (5, none)

/-- A fetch environment whose first request is answered with 403. -/
def authRejectEnv : FetchEnv :=
  ⟨0, ⟨some 200, some 200, [("a", "b")], 3⟩, .resp ⟨403, .ok .null⟩,
    ⟨some 200, some 200, [("c", "d")], 9⟩, .resp ⟨200, .ok .null⟩⟩

/-- A refresh run whose two page loads both end with status 300: non-2xx,
yet not rejected by `raise_for_status`. -/
def refresh300 : RefreshEnv :=
  ⟨some 300, some 300, [], 7⟩

/-- A session state holding one old cookie acquired at time 1. -/
def staleSession : SessionState :=
  ⟨[("a", "b")], 1⟩

/-- A refresh run whose first page load raises a network error. -/
def refreshNetErr : RefreshEnv :=
  ⟨none, none, [], 0⟩

/-! ## Claim theorems -/

/-- Claim C1: any exception escaping the fetch-and-update step of a poll
cycle is caught at the loop boundary and treated as a failed cycle (the
cache keeps its prior value), and the loop always proceeds: after any
cycle, successful or failed, the state after `n + 1` cycles is obtained
by running one more `cycleStep` on the state after `n` cycles — `runLoop`
is total, so no cycle's failure terminates the loop. -/
theorem loop_survives_cycle_failures :
    (∀ (trace : Nat → Int × Option JVal) (c : Cache) (n : Nat),
        runLoop trace c (n + 1) = cycleStep (runLoop trace c n) (trace n).1 (trace n).2) ∧
    (∀ (c : Cache) (t : Int) (d : JVal) (e : PyErr),
        extractTotals d = .error e → cycleStep c t (some d) = c) := by
  refine ⟨fun trace c n => rfl, fun c t d e h => ?_⟩
  simp [cycleStep, _update_totals_from_json, h]

/-- Witness for C1 at concrete inputs: one more cycle after a none-cycle,
and a cycle whose update raises (`{"filtered": 5}`) leaves the cache
unchanged. -/
theorem loop_survives_cycle_failures_witness :
    runLoop noneTrace initCache 1 =
      cycleStep (runLoop noneTrace initCache 0) (noneTrace 0).1 (noneTrace 0).2 ∧
    cycleStep initCache 5 (some badPayload) = initCache :=
  ⟨loop_survives_cycle_failures.1 noneTrace initCache 0,
   loop_survives_cycle_failures.2 initCache 5 badPayload .attributeError rfl⟩

/-- Claim C3: `GET /` answers 503 with the documented error body exactly
when no successful fetch has ever completed (`cache["timestamp"] == 0`),
and otherwise 200 with exactly the cached totals structure
`{"CE": {"totalOI": _}, "PE": {"totalOI": _}}`. -/
theorem get_root_endpoint_behaviour (c : Cache) :
    (c.timestamp = 0 →
      get_option_totals c =
        (503, .jobj [("error",
          .jstr "Data not yet available; try again in a few seconds.")])) ∧
    (c.timestamp ≠ 0 → get_option_totals c = (200, c.totals)) ∧
    (∀ (t : Int) (ce pe : JVal), t ≠ 0 →
      get_option_totals ⟨t, mkTotals ce pe⟩ =
        (200, .jobj [("CE", .jobj [("totalOI", ce)]),
                     ("PE", .jobj [("totalOI", pe)])])) := by
  refine ⟨fun h => ?_, fun h => ?_, fun t ce pe h => ?_⟩
  · simp [get_option_totals, h, unavailableBody]
  · simp [get_option_totals, h]
  · simp [get_option_totals, h, mkTotals]

/-- Witness for C3: the fresh cache yields the 503 error body; a cache
filled by the success scenario yields 200 with the exact totals shape. -/
theorem get_root_endpoint_behaviour_witness :
    get_option_totals initCache =
      (503, .jobj [("error",
        .jstr "Data not yet available; try again in a few seconds.")]) ∧
    get_option_totals ⟨7, mkTotals (.jint 120) (.jint 95)⟩ =
      (200, .jobj [("CE", .jobj [("totalOI", .jint 120)]),
                   ("PE", .jobj [("totalOI", .jint 95)])]) :=
  ⟨(get_root_endpoint_behaviour initCache).1 rfl,
   (get_root_endpoint_behaviour ⟨7, mkTotals (.jint 120) (.jint 95)⟩).2.2
     7 (.jint 120) (.jint 95) (by decide)⟩

/-- Claim C6: a poll cycle whose fetch yields no payload leaves the cache
completely unchanged, so any batch of such cycles after a success keeps
serving the last successful snapshot on `GET /`. -/
theorem failed_cycles_leave_cache_unchanged (c : Cache)
    (inputs : List (Int × Option JVal)) (h : ∀ p ∈ inputs, p.2 = none) :
    runCycles c inputs = c ∧
    get_option_totals (runCycles c inputs) = get_option_totals c := by
  have main : runCycles c inputs = c := by
    induction inputs with
    | nil => rfl
    | cons p rest ih =>
      have hp : p.2 = none := h p (List.mem_cons_self p rest)
      have hrest : ∀ q ∈ rest, q.2 = none := fun q hq => h q (List.mem_cons_of_mem p hq)
      calc runCycles c (p :: rest)
          = runCycles (cycleStep c p.1 p.2) rest := rfl
        _ = runCycles c rest := by rw [hp]; rfl
        _ = c := ih hrest
  exact ⟨main, by rw [main]⟩

/-- Witness for C6: five unreachable-origin cycles after one success leave
the snapshot served by `GET /` unchanged. -/
theorem failed_cycles_leave_cache_unchanged_witness :
    runCycles ⟨7, mkTotals (.jint 120) (.jint 95)⟩
        [(8, none), (9, none), (10, none), (11, none), (12, none)] =
      ⟨7, mkTotals (.jint 120) (.jint 95)⟩ ∧
    get_option_totals (runCycles ⟨7, mkTotals (.jint 120) (.jint 95)⟩
        [(8, none), (9, none), (10, none), (11, none), (12, none)]) =
      get_option_totals ⟨7, mkTotals (.jint 120) (.jint 95)⟩ :=
  failed_cycles_leave_cache_unchanged ⟨7, mkTotals (.jint 120) (.jint 95)⟩
    [(8, none), (9, none), (10, none), (11, none), (12, none)]
    (by intro p hp
        simp only [List.mem_cons, List.not_mem_nil, or_false] at hp
        rcases hp with rfl | rfl | rfl | rfl | rfl <;> rfl)

/-- Helper: on every path through `_fetch_option_chain_json`, the number of
pre-fetch refreshes is 1 when the staleness condition of the source's
line `if now - _last_cookie_time > COOKIE_REFRESH_INTERVAL or not
_cookies:` holds, and 0 otherwise. -/
theorem fetch_preRefreshes_eq (st : SessionState) (env : FetchEnv) :
    (_fetch_option_chain_json st env).2.2.preRefreshes =
      if decide (env.now - st.lastCookieTime > 600) || st.cookies.isEmpty
      then 1 else 0 := by
  unfold _fetch_option_chain_json
  rcases env.attempt1 with _ | r1
  · rfl
  · by_cases hst : r1.status = 401 ∨ r1.status = 403
    · rcases env.attempt2 with _ | r2 <;> simp [hst]
    · simp [hst]

/-- Claim C5: the pre-fetch cookie refresh runs if and only if the cookie
age exceeds 600 seconds or no cookies exist yet; with fresh cookies
present it is skipped. -/
theorem pre_refresh_iff_stale_or_absent (st : SessionState) (env : FetchEnv) :
    (_fetch_option_chain_json st env).2.2.preRefreshes = 1 ↔
      (env.now - st.lastCookieTime > 600 ∨ st.cookies = []) := by
  rw [fetch_preRefreshes_eq]
  cases hb : decide (env.now - st.lastCookieTime > 600) || st.cookies.isEmpty
  · simp only [Bool.or_eq_false_iff, decide_eq_false_iff_not,
      List.isEmpty_eq_false] at hb
    simp [hb.1, hb.2]
  · simp only [Bool.or_eq_true, decide_eq_true_eq, List.isEmpty_iff] at hb
    simpa using hb

/-- Claim C2: when the first data request comes back 401 or 403, the fetch
performs exactly one reactive cookie refresh and exactly two data-request
attempts in total, whatever the retry's outcome. -/
theorem auth_reject_one_refresh_one_retry (st : SessionState) (env : FetchEnv)
    (r1 : DataResp) (h1 : env.attempt1 = .resp r1)
    (h2 : r1.status = 401 ∨ r1.status = 403) :
    (_fetch_option_chain_json st env).2.2.attempts = 2 ∧
    (_fetch_option_chain_json st env).2.2.reactiveRefreshes = 1 := by
  unfold _fetch_option_chain_json
  rcases env.attempt2 with _ | r2 <;>
    rcases h2 with h2 | h2 <;>
      simp [h1, h2]

/-- Witness for C2: a concrete 403 first response gives 2 attempts and
1 reactive refresh. -/
theorem auth_reject_one_refresh_one_retry_witness :
    (_fetch_option_chain_json initSession authRejectEnv).2.2.attempts = 2 ∧
    (_fetch_option_chain_json initSession authRejectEnv).2.2.reactiveRefreshes = 1 :=
  auth_reject_one_refresh_one_retry initSession authRejectEnv
    ⟨403, .ok .null⟩ rfl (Or.inr rfl)

/-- Helper: the event-loop invariant holds in every reachable state. -/
theorem loopInv_reachable (s : LoopState) (h : LoopReachable s) : loopInv s := by
  induction h with
  | init =>
    exact ⟨fun _ => ⟨rfl, rfl⟩, fun hpc => by simp [initLoopState] at hpc⟩
  | step hr hs ih =>
    cases hs with
    | failedCycle h => exact ih
    | writeTimestamp h =>
      refine ⟨fun hpc => by simp at hpc, fun _ => ⟨rfl, ?_⟩⟩
      exact (ih.1 h).2
    | writeTotals h =>
      refine ⟨fun _ => ⟨?_, rfl⟩, fun hpc => by simp at hpc⟩
      exact (ih.2 h).1

/-- Claim C7: under the asyncio event loop a reader coroutine can run only
while the writer is suspended at `await asyncio.sleep`, and in every
reachable such state the cache's timestamp and totals carry the SAME
cycle tag (that of the last completed cycle) — even though the two cache
assignments are separate micro-steps, no interleaving lets a reader pair
totals of one cycle with the timestamp of another. -/
theorem snapshot_handoff_atomic (s : LoopState) (hr : LoopReachable s)
    (hp : s.pc = .sleeping) :
    readerObservation s hp = (s.done, s.done) := by
  have hinv := (loopInv_reachable s hr).1 hp
  simp [readerObservation, hinv.1, hinv.2]

/-- Witness for C7: the state reached after one full successful cycle
(timestamp write, then totals write) is readable and shows the matched
pair (1, 1). -/
theorem snapshot_handoff_atomic_witness :
    readerObservation ⟨.sleeping, 1, 1, 1⟩ rfl = (1, 1) :=
  snapshot_handoff_atomic ⟨.sleeping, 1, 1, 1⟩
    (LoopReachable.step
      (LoopReachable.step LoopReachable.init
        (LoopMicroStep.writeTimestamp initLoopState rfl))
      (LoopMicroStep.writeTotals ⟨.midUpdate, 1, 0, 0⟩ rfl))
    rfl

/-- Claim C4: whenever the nested path `filtered`.`side`.`totOI` traverses
only dicts and some key on it is absent, the chained `.get` extraction
returns 0 for that side without raising; in particular the empty payload
`{}` extracts to (0, 0). -/
theorem missing_totOI_extracts_zero :
    (∀ (d : JVal) (s : String), keyMissing d s = true →
        extractSide d s = .ok (.jint 0)) ∧
    extractTotals (.jobj []) = .ok (.jint 0, .jint 0) := by
  refine ⟨fun d s h => ?_, rfl⟩
  cases d with
  | jobj f =>
    simp only [keyMissing] at h
    cases hf : getKey f "filtered" with
    | none => simp [extractSide, pyGet, hf, getKey]
    | some v =>
      simp only [hf] at h
      cases v with
      | jobj g =>
        cases hg : getKey g s with
        | none => simp [extractSide, pyGet, hf, hg, getKey]
        | some w =>
          simp only [hg] at h
          cases w with
          | jobj hh =>
            cases ht : getKey hh "totOI" with
            | none => simp [extractSide, pyGet, hf, hg, ht]
            | some u => simp [ht] at h
          | null => simp at h
          | jbool b => simp at h
          | jint n => simp at h
          | jstr s2 => simp at h
          | jarr xs => simp at h
      | null => simp at h
      | jbool b => simp at h
      | jint n => simp at h
      | jstr s2 => simp at h
      | jarr xs => simp at h
  | null => simp [keyMissing] at h
  | jbool b => simp [keyMissing] at h
  | jint n => simp [keyMissing] at h
  | jstr s2 => simp [keyMissing] at h
  | jarr xs => simp [keyMissing] at h

/-- Witness for C4: `{"filtered": {"CE": {}}}` has no `totOI` key for the
CE side and extracts to 0 there. -/
theorem missing_totOI_extracts_zero_witness :
    extractSide (.jobj [("filtered", .jobj [("CE", .jobj [])])]) "CE" =
      .ok (.jint 0) :=
  missing_totOI_extracts_zero.1
    (.jobj [("filtered", .jobj [("CE", .jobj [])])]) "CE" rfl

/-- Counterexample to C8 as stated: a refresh whose two page loads both
end with status 300 — a non-2xx status on either handshake step, hence a
"failing execution" in the claim's sense — nevertheless REPLACES the
stored cookie set and the last-acquisition timestamp, because
`raise_for_status` only raises for statuses in [400, 600). -/
theorem refresh_non2xx_updates_store :
    is2xx 300 = false ∧
    _refresh_nse_cookies staleSession refresh300 = ⟨[], 7⟩ ∧
    _refresh_nse_cookies staleSession refresh300 ≠ staleSession := by
  refine ⟨rfl, rfl, ?_⟩
  decide

/-- Claim C8 (amended): for every execution of the cookie refresh whose
`try` body fails — a network error on either page load, or a status in
[400, 600) rejected by `raise_for_status` — the session store keeps both
its cookie set and its last-acquisition timestamp, and the refresh never
raises past its boundary (it is a total function of its environment). -/
theorem refresh_failure_leaves_store (st : SessionState) (env : RefreshEnv)
    (h : refreshFails env = true) :
    _refresh_nse_cookies st env = st := by
  unfold refreshFails at h
  unfold _refresh_nse_cookies refreshBody
  cases henv : env.homeStatus with
  | none => rfl
  | some s1 =>
    simp only [henv] at h
    cases h1 : raise_for_status s1 with
    | true => simp [h1]
    | false =>
      simp only [h1, Bool.false_or] at h
      cases henv2 : env.chainStatus with
      | none => simp [h1]
      | some s2 =>
        simp only [henv2] at h
        simp [h1, h]

/-- Witness for amended C8: a network error on the first page load leaves
the initial session state untouched. -/
theorem refresh_failure_leaves_store_witness :
    _refresh_nse_cookies initSession refreshNetErr = initSession :=
  refresh_failure_leaves_store initSession refreshNetErr rfl

/-- Claim C10: totals extraction is not total over parsed-JSON payload
dicts: it raises on `{"filtered": 5}`; more generally, whenever the
`"filtered"` key of the payload, or the `"CE"` key inside a dict-valued
`"filtered"`, is present with a non-dict value, the chained `.get`
raises `AttributeError`. -/
theorem extraction_not_total :
    extractTotals badPayload = .error .attributeError ∧
    (∀ (f : List (String × JVal)) (v : JVal),
        getKey f "filtered" = some v → isDict v = false →
        ∃ e, extractTotals (.jobj f) = .error e) ∧
    (∀ (g : List (String × JVal)) (v : JVal),
        getKey g "CE" = some v → isDict v = false →
        ∃ e, extractTotals (.jobj [("filtered", .jobj g)]) = .error e) := by
  refine ⟨rfl, fun f v hf hd => ⟨.attributeError, ?_⟩, fun g v hg hd => ⟨.attributeError, ?_⟩⟩
  · cases v with
    | jobj fields => simp [isDict] at hd
    | null => simp [extractTotals, extractSide, pyGet, hf]
    | jbool b => simp [extractTotals, extractSide, pyGet, hf]
    | jint n => simp [extractTotals, extractSide, pyGet, hf]
    | jstr s2 => simp [extractTotals, extractSide, pyGet, hf]
    | jarr xs => simp [extractTotals, extractSide, pyGet, hf]
  · cases v with
    | jobj fields => simp [isDict] at hd
    | null => simp [extractTotals, extractSide, pyGet, getKey, hg]
    | jbool b => simp [extractTotals, extractSide, pyGet, getKey, hg]
    | jint n => simp [extractTotals, extractSide, pyGet, getKey, hg]
    | jstr s2 => simp [extractTotals, extractSide, pyGet, getKey, hg]
    | jarr xs => simp [extractTotals, extractSide, pyGet, getKey, hg]

/-- Witness for C10's universal parts at concrete inputs: a list-valued
`"filtered"` and a string-valued nested `"CE"` both make extraction
raise. -/
theorem extraction_not_total_witness :
    (∃ e, extractTotals (.jobj [("filtered", .jarr [])]) = .error e) ∧
    (∃ e, extractTotals
        (.jobj [("filtered", .jobj [("CE", .jstr "x")])]) = .error e) :=
  ⟨extraction_not_total.2.1 [("filtered", .jarr [])] (.jarr []) rfl rfl,
   extraction_not_total.2.2 [("CE", .jstr "x")] (.jstr "x") rfl rfl⟩

/-- Helper: on a payload whose side path traverses only dicts and whose
`totOI` value (when present) is a non-negative integer, `extractSide`
returns a non-negative integer. -/
theorem sideNonneg_extract (d : JVal) (s : String) (h : sideNonneg d s = true) :
    ∃ n : Int, extractSide d s = .ok (.jint n) ∧ 0 ≤ n := by
  cases d with
  | jobj f =>
    simp only [sideNonneg] at h
    cases hf : getKey f "filtered" with
    | none => exact ⟨0, by simp [extractSide, pyGet, hf, getKey], le_refl 0⟩
    | some v =>
      simp only [hf] at h
      cases v with
      | jobj g =>
        cases hg : getKey g s with
        | none => exact ⟨0, by simp [extractSide, pyGet, hf, hg, getKey], le_refl 0⟩
        | some w =>
          simp only [hg] at h
          cases w with
          | jobj hh =>
            cases ht : getKey hh "totOI" with
            | none => exact ⟨0, by simp [extractSide, pyGet, hf, hg, ht], le_refl 0⟩
            | some u =>
              simp only [ht] at h
              cases u with
              | jint n =>
                refine ⟨n, by simp [extractSide, pyGet, hf, hg, ht], ?_⟩
                simpa using h
              | null => simp at h
              | jbool b => simp at h
              | jstr s2 => simp at h
              | jarr xs => simp at h
              | jobj f2 => simp at h
          | null => simp at h
          | jbool b => simp at h
          | jint n => simp at h
          | jstr s2 => simp at h
          | jarr xs => simp at h
      | null => simp at h
      | jbool b => simp at h
      | jint n => simp at h
      | jstr s2 => simp at h
      | jarr xs => simp at h
  | null => simp [sideNonneg] at h
  | jbool b => simp [sideNonneg] at h
  | jint n => simp [sideNonneg] at h
  | jstr s2 => simp [sideNonneg] at h
  | jarr xs => simp [sideNonneg] at h

/-- Counterexample to C9 as stated: the payload
`{"filtered": {"CE": {"totOI": -5}, "PE": {"totOI": 0}}}` is accepted by
a successful cycle (extraction succeeds, the cache is replaced), yet the
stored and served CE `totalOI` is `-5`, not a non-negative integer. -/
theorem negative_totOI_accepted_and_served :
    extractTotals negPayload = .ok (.jint (-5), .jint 0) ∧
    cycleStep initCache 7 (some negPayload) =
      ⟨7, mkTotals (.jint (-5)) (.jint 0)⟩ ∧
    isNonnegInt (.jint (-5)) = false ∧
    get_option_totals (cycleStep initCache 7 (some negPayload)) =
      (200, mkTotals (.jint (-5)) (.jint 0)) :=
  ⟨rfl, rfl, rfl, rfl⟩

/-- Claim C9 (amended): for every payload accepted by a successful cycle
whose `totOI` values along the `filtered` paths are, when present,
non-negative integers (absent keys defaulting to 0), the cache stores —
and `GET /` serves — the `OITotals` shape with both `totalOI` fields
non-negative integers.  The code itself performs no validation, so the
non-negativity of what is served is conditional on the payload. -/
theorem wellformed_payload_totals_nonneg (d : JVal) (t : Int) (c : Cache)
    (hce : sideNonneg d "CE" = true) (hpe : sideNonneg d "PE" = true)
    (htr : isTruthy d = true) :
    ∃ ce pe : Int,
      cycleStep c t (some d) = ⟨t, mkTotals (.jint ce) (.jint pe)⟩ ∧
      isNonnegInt (.jint ce) = true ∧ isNonnegInt (.jint pe) = true := by
  obtain ⟨nce, hEce, h0ce⟩ := sideNonneg_extract d "CE" hce
  obtain ⟨npe, hEpe, h0pe⟩ := sideNonneg_extract d "PE" hpe
  refine ⟨nce, npe, ?_, by simp [isNonnegInt, h0ce], by simp [isNonnegInt, h0pe]⟩
  simp [cycleStep, htr, _update_totals_from_json, extractTotals, hEce, hEpe]

/-- Witness for amended C9: the spec's success-scenario payload stores
non-negative integer totals. -/
theorem wellformed_payload_totals_nonneg_witness :
    ∃ ce pe : Int,
      cycleStep initCache 7 (some goodPayload) =
        ⟨7, mkTotals (.jint ce) (.jint pe)⟩ ∧
      isNonnegInt (.jint ce) = true ∧ isNonnegInt (.jint pe) = true :=
  wellformed_payload_totals_nonneg goodPayload 7 initCache rfl rfl rfl
